import Mathlib

/-!
Verification of the orchestration core of the `reuben` repository
(`src/sandwich/agent/`): the agent state machine with checkpoints
(`state_machine.py`), the adaptive forager (`forager.py`), the error
router (`error_handler.py`) and the candidate selector (`selector.py`).

The Python code is modelled by a shallow embedding:

* Python `float` values are modelled as exact rationals (`ℚ`);
  `x ** 0.5` is modelled by `Rat.sqrt`.
* UUIDs and timestamps are environmental nondeterminism: they are
  modelled as `Nat` values passed in explicitly by the caller.
* A method that can raise is modelled as a function returning
  `Except e α` together with the post-call object state, mirroring the
  order of mutations in the Python body (a `raise` before any mutation
  leaves the object unchanged).
* Python dictionaries are modelled as association lists (first match
  wins, as keys are unique in all constructed values).
-/

namespace Sandwich

/-- The ten agent states of `AgentState` in `state_machine.py`. -/
inductive AgentState where
  | idle
  | foraging
  | preprocessing
  | identifying
  | selecting
  | assembling
  | validating
  | storing
  | error_recovery
  | session_end
deriving DecidableEq, Repr

/-- The `.value` string of each state (the `Enum` payload). -/
def AgentState.value : AgentState → String
  | .idle => "idle"
  | .foraging => "foraging"
  | .preprocessing => "preprocessing"
  | .identifying => "identifying"
  | .selecting => "selecting"
  | .assembling => "assembling"
  | .validating => "validating"
  | .storing => "storing"
  | .error_recovery => "error_recovery"
  | .session_end => "session_end"

/-- The transition table `TRANSITIONS` of `state_machine.py`:
current state to the ordered event-to-next-state row. -/
def TRANSITIONS : AgentState → List (String × AgentState)
  | .idle =>
      [("start_foraging", .foraging),
       ("end_session", .session_end)]
  | .foraging =>
      [("content_found", .preprocessing),
       ("forage_failed", .idle),
       ("error", .error_recovery)]
  | .preprocessing =>
      [("content_accepted", .identifying),
       ("content_rejected", .idle),
       ("error", .error_recovery)]
  | .identifying =>
      [("candidates_found", .selecting),
       ("no_candidates", .idle),
       ("error", .error_recovery)]
  | .selecting =>
      [("candidate_selected", .assembling),
       ("none_viable", .idle),
       ("error", .error_recovery)]
  | .assembling =>
      [("assembly_complete", .validating),
       ("error", .error_recovery)]
  | .validating =>
      [("accepted", .storing),
       ("review", .storing),
       ("rejected", .idle),
       ("error", .error_recovery)]
  | .storing =>
      [("stored", .idle),
       ("error", .error_recovery)]
  | .error_recovery =>
      [("recovered", .idle),
       ("fatal", .session_end)]
  | .session_end => []

/-- The list of legal event names for a state, as used in the
`InvalidTransitionError` message (`list(TRANSITIONS.get(s, {}).keys())`). -/
def validEvents (s : AgentState) : List String :=
  (TRANSITIONS s).map Prod.fst

/-- The `InvalidTransitionError` of `state_machine.py`: carries the current
state and the attempted event as attributes, and the set of legal events
through the rendered message. -/
structure InvalidTransitionError where
  current_state : AgentState
  event : String
  valid_events : List String
deriving DecidableEq, Repr

/-- The `StateCheckpoint` of `state_machine.py`.  `checkpoint_id` and
`timestamp` (fresh UUID / wall clock in Python) are `Nat` supplied by the
caller; the free-form `data` payload is an association list of strings. -/
structure StateCheckpoint where
  checkpoint_id : Nat
  session_id : Nat
  state : AgentState
  timestamp : Nat
  data : List (String × String)
  transition_reason : String
deriving DecidableEq, Repr

/-- The `StateMachine` of `state_machine.py`: session id, current state, and
the in-memory checkpoint log. -/
structure StateMachine where
  session_id : Nat
  current_state : AgentState
  checkpoints : List StateCheckpoint
deriving DecidableEq, Repr

/-- Constructor `StateMachine.__init__`: fresh machine in `IDLE` with an empty log. -/
def StateMachine.mkNew (session_id : Nat) : StateMachine :=
  { session_id := session_id, current_state := .idle, checkpoints := [] }

/-- Method `StateMachine.can_transition`: membership of the event in the current
state's transition row. -/
def StateMachine.can_transition (m : StateMachine) (event : String) : Bool :=
  ((TRANSITIONS m.current_state).lookup event).isSome

/-- Method `StateMachine.transition`: on an illegal event, raise
`InvalidTransitionError` (machine unchanged); otherwise append a
checkpoint recording the new state and advance `current_state`.
`cid` and `ts` stand for the fresh `checkpoint_id` and `timestamp`. -/
def StateMachine.transition (m : StateMachine) (event : String)
    (data : List (String × String)) (cid ts : Nat) :
    Except InvalidTransitionError AgentState × StateMachine :=
  match (TRANSITIONS m.current_state).lookup event with
  | none =>
      (Except.error
        { current_state := m.current_state, event := event,
          valid_events := validEvents m.current_state }, m)
  | some new_state =>
      let checkpoint : StateCheckpoint :=
        { checkpoint_id := cid, session_id := m.session_id,
          state := new_state, timestamp := ts, data := data,
          transition_reason :=
            m.current_state.value ++ " --[" ++ event ++ "]--> "
              ++ new_state.value }
      (Except.ok new_state,
        { m with checkpoints := m.checkpoints ++ [checkpoint],
                 current_state := new_state })

/-- Method `StateMachine.recover_from_checkpoint`: restore `current_state` and
`session_id` from the checkpoint and append it to the log. -/
def StateMachine.recover_from_checkpoint (m : StateMachine)
    (checkpoint : StateCheckpoint) : StateMachine :=
  { m with current_state := checkpoint.state,
           session_id := checkpoint.session_id,
           checkpoints := m.checkpoints ++ [checkpoint] }

/-- Method `StateMachine.get_latest_checkpoint`: last element of the log, if any. -/
def StateMachine.get_latest_checkpoint (m : StateMachine) :
    Option StateCheckpoint :=
  m.checkpoints.getLast?

/-! ## Adaptive forager (`forager.py`) -/

/-- The `ForagerConfig` of `forager.py`, with its default field values. -/
structure ForagerConfig where
  max_patience : Nat := 5
  tier_1_sources : List String := ["wikipedia"]
  tier_2_sources : List String := ["web_search"]
  tier_3_sources : List String := []
  successes_to_promote : Nat := 5
  failures_to_demote : Nat := 3
deriving DecidableEq, Repr

/-- The `SourceResult` of `sources/base.py`. -/
structure SourceResult where
  content : String
  url : Option String := none
  title : Option String := none
  content_type : String := "text"
  metadata : List (String × String) := []
deriving DecidableEq, Repr

/-- The `ForagingResult` of `forager.py`; the fresh `log_id` UUID is a `Nat`
supplied by the caller. -/
structure ForagingResult where
  source_result : SourceResult
  source_name : String
  curiosity_prompt : Option String
  log_id : Nat
deriving DecidableEq, Repr

/-- The `Forager` of `forager.py`.  A `ContentSource` is represented by its
name; the `sources` dict is an association list tier number to source
list.  The `llm` collaborator is used only by `generate_curiosity`
(a pure LLM pass-through, not modelled). -/
structure Forager where
  sources : List (Nat × List String)
  config : ForagerConfig
  current_tier : Nat
  consecutive_failures : Nat
  consecutive_successes : Nat
deriving DecidableEq, Repr

/-- Constructor `Forager.__init__`: starts at tier 1 with both streak counters 0. -/
def Forager.init (sources : List (Nat × List String))
    (config : ForagerConfig) : Forager :=
  { sources := sources, config := config, current_tier := 1,
    consecutive_failures := 0, consecutive_successes := 0 }

/-- The expression `max(self.sources.keys()) if self.sources else 1` from
`record_success`. -/
def maxTier (sources : List (Nat × List String)) : Nat :=
  if sources.isEmpty then 1
  else (sources.map Prod.fst).foldl max 0

/-- Method `Forager.record_success`: zero the failure streak, bump the success
streak, and promote one tier (resetting the streak) when the streak
reaches `successes_to_promote` and a higher tier is configured. -/
def Forager.record_success (f : Forager) : Forager :=
  let f1 := { f with consecutive_failures := 0,
                     consecutive_successes := f.consecutive_successes + 1 }
  if f1.config.successes_to_promote ≤ f1.consecutive_successes then
    if f1.current_tier < maxTier f1.sources then
      { f1 with current_tier := f1.current_tier + 1,
                consecutive_successes := 0 }
    else f1
  else f1

/-- Method `Forager.record_failure`: zero the success streak, bump the failure
streak, and demote one tier (resetting the streak) when the streak
reaches `failures_to_demote` and the tier is above 1. -/
def Forager.record_failure (f : Forager) : Forager :=
  let f1 := { f with consecutive_successes := 0,
                     consecutive_failures := f.consecutive_failures + 1 }
  if f1.config.failures_to_demote ≤ f1.consecutive_failures then
    if 1 < f1.current_tier then
      { f1 with current_tier := f1.current_tier - 1,
                consecutive_failures := 0 }
    else f1
  else f1

/-- The loop of `Forager._get_tier_sources`: walk tiers `t, t-1, ..., 1`
and return the first configured non-empty source list, else `[]`. -/
def tierWalk (sources : List (Nat × List String)) : Nat → List String
  | 0 => []
  | t + 1 =>
      match sources.lookup (t + 1) with
      | some l => if l.isEmpty then tierWalk sources t else l
      | none => tierWalk sources t

/-- Method `Forager._get_tier_sources`. -/
def Forager.get_tier_sources (f : Forager) : List String :=
  tierWalk f.sources f.current_tier

/-- Outcome of an external `source.fetch` / `source.fetch_random` call:
either a returned `SourceResult` or a raised exception. -/
inductive FetchOutcome where
  | success (result : SourceResult)
  | raised
deriving DecidableEq, Repr

/-- The error channel of `Forager.forage`.  The spec's taxonomy names a
`ConfigurationFailure` ("no sources configured"); the Python body never
raises it (the no-source branch logs a warning and returns `None`), so
this constructor is never produced by `Forager.forage`. -/
inductive ForageError where
  | configurationFailure (message : String)
deriving DecidableEq, Repr

/-- Method `Forager.forage`.  External nondeterminism is passed in: `choose`
models `random.choice` on a non-empty list, `fetch`/`fetch_random` model
the selected source's calls (looked up by source name), and `logId` is
the fresh `ForagingResult.log_id`.  Mirrors the body: empty effective
source list returns `None`; a fetch exception is caught and returns
`None`; empty fetched content returns `None`. -/
def Forager.forage (f : Forager) (choose : List String → String)
    (fetch : String → String → FetchOutcome)
    (fetch_random : String → FetchOutcome)
    (logId : Nat) (curiosity : Option String) :
    Except ForageError (Option ForagingResult) :=
  let tier_sources := f.get_tier_sources
  if tier_sources.isEmpty then Except.ok none
  else
    let source := choose tier_sources
    let outcome :=
      match curiosity with
      | some q => if q.isEmpty then fetch_random source else fetch source q
      | none => fetch_random source
    match outcome with
    | .raised => Except.ok none
    | .success result =>
        if result.content.isEmpty then Except.ok none
        else
          Except.ok (some
            { source_result := result, source_name := source,
              curiosity_prompt := curiosity, log_id := logId })

/-! ## Error router (`error_handler.py`) -/

/-- Modelled from the spec: the exception taxonomy of
`sandwich/errors/exceptions.py` is not under `src/` (only its importers
are).  Spec section 6 `ErrorTaxonomy`: a failure exposes a discriminant
tag drawn from fatal, content, parse, retryable, other, plus a free-text
reason (`ParseError` carries the raw output instead, per its use in the
tests). -/
inductive SandwichError where
  | fatalError (reason : String)
  | contentError (reason : String)
  | parseError (raw_output : String)
  | retryableError (reason : String)
  | otherError (reason : String)
deriving DecidableEq, Repr

/-- Whether a failure is flagged fatal. -/
def SandwichError.isFatal : SandwichError → Bool
  | .fatalError _ => true
  | _ => false

/-- Function `determine_recovery_event` of `error_handler.py`: the isinstance
cascade fatal, content, parse, retryable, with an unknown-subclass
catch-all returning "recovered". -/
def determine_recovery_event : SandwichError → String
  | .fatalError _ => "fatal"
  | .contentError _ => "recovered"
  | .parseError _ => "recovered"
  | .retryableError _ => "recovered"
  | .otherError _ => "recovered"

/-! ## Candidate selector (`selector.py`) -/

/-- Modelled from the spec: `CandidateStructure` of
`sandwich/agent/identifier.py` is not under `src/` (only its importers
are).  Spec section 3 data model: bread-top text, bread-bottom text,
filler text, a structure-type tag, a confidence in the unit interval,
and a rationale string. -/
structure CandidateStructure where
  bread_top : String
  bread_bottom : String
  filling : String
  structure_type : String
  confidence : ℚ
  rationale : String
deriving DecidableEq, Repr

instance : BEq CandidateStructure := ⟨fun a b => decide (a = b)⟩

/-- The `SelectionConfig` of `selector.py`, with its default field values. -/
structure SelectionConfig where
  min_confidence : ℚ := 4 / 10
  novelty_weight : ℚ := 3 / 10
  diversity_weight : ℚ := 2 / 10
deriving DecidableEq, Repr

/-- The `SelectedCandidate` of `selector.py`. -/
structure SelectedCandidate where
  candidate : CandidateStructure
  final_score : ℚ
  novelty_bonus : ℚ
  diversity_bonus : ℚ
  rationale : String
deriving DecidableEq, Repr

/-- Function `_cosine_similarity` of `selector.py`: dot product over the product
of Euclidean norms, `0` when either norm is zero.  The float square
root is modelled by `Rat.sqrt`. -/
def cosine_similarity (a b : List ℚ) : ℚ :=
  let dot := ((a.zip b).map fun p => p.1 * p.2).sum
  let norm_a := Rat.sqrt (a.map fun x => x * x).sum
  let norm_b := Rat.sqrt (b.map fun x => x * x).sum
  if norm_a = 0 ∨ norm_b = 0 then 0
  else dot / (norm_a * norm_b)

/-- Python truthiness of an `Optional[list]`: `None` and `[]` are falsy. -/
def truthyList : Option (List α) → Bool
  | none => false
  | some l => !l.isEmpty

/-- Maximum of a list of rationals (Python `max` on a non-empty list;
the `0` default is never reached where this is used). -/
def listMax (l : List ℚ) : ℚ :=
  l.foldl max (l.headD 0)

/-- The rationale string built for each candidate.  Numeric formatting
(`%.2f` and friends) is abstracted to plain `toString`. -/
def mkRationale (confidence novelty_bonus diversity_bonus final_score
    novelty_weight diversity_weight : ℚ) : String :=
  "confidence=" ++ toString confidence
    ++ ", novelty_bonus=" ++ toString novelty_bonus
    ++ " (w=" ++ toString novelty_weight ++ ")"
    ++ ", diversity_bonus=" ++ toString diversity_bonus
    ++ " (w=" ++ toString diversity_weight ++ ")"
    ++ ", final=" ++ toString final_score

/-- The per-candidate body of the `select_candidate` loop: compute the
novelty bonus, diversity bonus, final score and rationale, and keep the
new candidate only on a strictly greater final score. -/
def selectStep (candidates : List CandidateStructure)
    (corpus_embeddings candidate_embeddings : Option (List (List ℚ)))
    (type_frequencies : Option (List (String × ℚ)))
    (cfg : SelectionConfig)
    (best : Option SelectedCandidate) (cand : CandidateStructure) :
    Option SelectedCandidate :=
  let novelty_bonus : ℚ :=
    if truthyList corpus_embeddings && truthyList candidate_embeddings then
      let ce := corpus_embeddings.getD []
      let cae := candidate_embeddings.getD []
      let orig_idx := candidates.indexOf cand
      if orig_idx < cae.length then
        let cand_emb := cae.getD orig_idx []
        let max_sim := listMax (ce.map fun corpus_emb =>
          cosine_similarity cand_emb corpus_emb)
        max 0 (min 1 (1 - max_sim))
      else 1
    else 1
  let diversity_bonus : ℚ :=
    match type_frequencies with
    | some tf =>
        match tf.lookup cand.structure_type with
        | some freq => max 0 (min 1 (1 - freq))
        | none => 1
    | none => 1
  let final_score : ℚ :=
    cand.confidence + cfg.novelty_weight * novelty_bonus
      + cfg.diversity_weight * diversity_bonus
  let entry : SelectedCandidate :=
    { candidate := cand, final_score := final_score,
      novelty_bonus := novelty_bonus, diversity_bonus := diversity_bonus,
      rationale := mkRationale cand.confidence novelty_bonus
        diversity_bonus final_score cfg.novelty_weight
        cfg.diversity_weight }
  match best with
  | none => some entry
  | some b => if b.final_score < final_score then some entry else some b

/-- Function `select_candidate` of `selector.py`: filter by `min_confidence`,
score every surviving candidate, and return the strictly best one
(first wins on ties), or `none` when no candidate survives the filter. -/
def select_candidate (candidates : List CandidateStructure)
    (corpus_embeddings candidate_embeddings : Option (List (List ℚ)))
    (type_frequencies : Option (List (String × ℚ)))
    (config : Option SelectionConfig) : Option SelectedCandidate :=
  let cfg := config.getD {}
  if candidates.isEmpty then none
  else
    let viable := candidates.filter fun c => cfg.min_confidence ≤ c.confidence
    if viable.isEmpty then none
    else
      viable.foldl
        (selectStep candidates corpus_embeddings candidate_embeddings
          type_frequencies cfg)
        none

/-! ## State machine lemmas -/

/-- An illegal event makes `transition` return the error and the
unchanged machine. -/
theorem transition_of_not_can (m : StateMachine) (event : String)
    (data : List (String × String)) (cid ts : Nat)
    (h : m.can_transition event = false) :
    m.transition event data cid ts =
      (Except.error
        { current_state := m.current_state, event := event,
          valid_events := validEvents m.current_state }, m) := by
  unfold StateMachine.can_transition at h
  unfold StateMachine.transition
  cases hl : (TRANSITIONS m.current_state).lookup event with
  | none => rfl
  | some s => rw [hl] at h; simp at h

/-- A legal event makes `transition` succeed, appending exactly one
checkpoint that records the new state. -/
theorem transition_of_lookup (m : StateMachine) (event : String)
    (data : List (String × String)) (cid ts : Nat) (s : AgentState)
    (h : (TRANSITIONS m.current_state).lookup event = some s) :
    m.transition event data cid ts =
      (Except.ok s,
        { m with
            current_state := s,
            checkpoints := m.checkpoints ++
              [{ checkpoint_id := cid, session_id := m.session_id,
                 state := s, timestamp := ts, data := data,
                 transition_reason :=
                   m.current_state.value ++ " --[" ++ event ++ "]--> "
                     ++ s.value }] }) := by
  unfold StateMachine.transition
  rw [h]

/-!
### C1

For every state `S` and event `E` not in `S`'s transition row,
`transition(E)` on a machine in state `S` raises `InvalidTransitionError`
carrying the current state, the attempted event and the list of legal
events, and leaves `current_state` unchanged.
-/

/-- C1: an event that is illegal for the current state makes `transition`
fail with an `InvalidTransitionError` carrying the current state, the
attempted event and the set of legal events, and the machine (hence
`current_state`) is unchanged. -/
theorem invalid_transition_error_and_unchanged (m : StateMachine)
    (event : String) (data : List (String × String)) (cid ts : Nat)
    (h : m.can_transition event = false) :
    (m.transition event data cid ts).1 =
      Except.error
        { current_state := m.current_state, event := event,
          valid_events := validEvents m.current_state } ∧
    ((m.transition event data cid ts).2).current_state = m.current_state ∧
    (m.transition event data cid ts).2 = m := by
  rw [transition_of_not_can m event data cid ts h]
  exact ⟨rfl, rfl, rfl⟩

/-- Witness for C1: the event "stored" is illegal in `IDLE`. -/
theorem invalid_transition_error_and_unchanged_witness :
    ((StateMachine.mkNew 7).can_transition "stored" = false) ∧
    (((StateMachine.mkNew 7).transition "stored" [] 1 10).1 =
      Except.error
        { current_state := .idle, event := "stored",
          valid_events := ["start_foraging", "end_session"] } ∧
     (((StateMachine.mkNew 7).transition "stored" [] 1 10).2).current_state
        = (StateMachine.mkNew 7).current_state ∧
     ((StateMachine.mkNew 7).transition "stored" [] 1 10).2 =
        StateMachine.mkNew 7) :=
  ⟨by decide,
   invalid_transition_error_and_unchanged (StateMachine.mkNew 7) "stored"
     [] 1 10 (by decide)⟩

/-!
### C2

After `N` successful transitions from a fresh machine the checkpoint log
has length exactly `N`, and the latest checkpoint records the current
state (it is absent when `N = 0`).
-/

/-- One transition request: event, payload, fresh checkpoint id, fresh
timestamp. -/
def TransitionStep : Type :=
  String × List (String × String) × Nat × Nat

/-- Apply a list of `transition` calls in order. -/
def runEvents (m : StateMachine) : List TransitionStep → StateMachine
  | [] => m
  | (e, d, cid, ts) :: rest => runEvents (m.transition e d cid ts).2 rest

/-- Every call in the list is legal at the point it is made (so every
call is a successful `transition`). -/
def allLegal (m : StateMachine) : List TransitionStep → Bool
  | [] => true
  | (e, d, cid, ts) :: rest =>
      m.can_transition e && allLegal (m.transition e d cid ts).2 rest

/-- The latest checkpoint, when present, records the current state. -/
def LatestOk (m : StateMachine) : Prop :=
  ∀ c, m.get_latest_checkpoint = some c → c.state = m.current_state

theorem transition_ok_of_can (m : StateMachine) (e : String)
    (d : List (String × String)) (cid ts : Nat)
    (h : m.can_transition e = true) :
    ∃ s cp, (m.transition e d cid ts).2 =
        { m with current_state := s,
                 checkpoints := m.checkpoints ++ [cp] } ∧
      cp.state = s := by
  unfold StateMachine.can_transition at h
  cases hl : (TRANSITIONS m.current_state).lookup e with
  | none => rw [hl] at h; simp at h
  | some s =>
      refine ⟨s,
        { checkpoint_id := cid, session_id := m.session_id, state := s,
          timestamp := ts, data := d,
          transition_reason :=
            m.current_state.value ++ " --[" ++ e ++ "]--> " ++ s.value },
        ?_, rfl⟩
      rw [transition_of_lookup m e d cid ts s hl]

theorem runEvents_length_and_latest (evs : List TransitionStep) :
    ∀ m : StateMachine, allLegal m evs = true → LatestOk m →
      (runEvents m evs).checkpoints.length
          = m.checkpoints.length + evs.length ∧
      LatestOk (runEvents m evs) := by
  induction evs with
  | nil => intro m _ hL; exact ⟨rfl, hL⟩
  | cons step rest ih =>
      obtain ⟨e, d, cid, ts⟩ := step
      intro m hA hL
      have hA' := hA
      unfold allLegal at hA'
      rw [Bool.and_eq_true] at hA'
      obtain ⟨hcan, hrest⟩ := hA'
      obtain ⟨s, cp, hm, hcp⟩ := transition_ok_of_can m e d cid ts hcan
      have hstep : runEvents m ((e, d, cid, ts) :: rest)
          = runEvents (m.transition e d cid ts).2 rest := rfl
      have hlen : ((m.transition e d cid ts).2).checkpoints.length
          = m.checkpoints.length + 1 := by
        rw [hm]; simp
      have hLat : LatestOk (m.transition e d cid ts).2 := by
        rw [hm]
        intro c hc
        unfold StateMachine.get_latest_checkpoint at hc
        simp only [List.getLast?_concat] at hc
        cases hc
        exact hcp
      obtain ⟨ih1, ih2⟩ := ih (m.transition e d cid ts).2 hrest hLat
      refine ⟨?_, by rw [hstep]; exact ih2⟩
      rw [hstep, ih1, hlen]
      simp only [List.length_cons]
      omega

/-- C2: for every sequence of `N` successful transition calls from a
fresh machine, the checkpoint log has length exactly `N`, the latest
checkpoint (when present) records `current_state`, and it is absent
exactly when `N = 0`. -/
theorem checkpoint_log_tracks_transitions (sid : Nat)
    (evs : List TransitionStep)
    (h : allLegal (StateMachine.mkNew sid) evs = true) :
    (runEvents (StateMachine.mkNew sid) evs).checkpoints.length
        = evs.length ∧
    (∀ c, (runEvents (StateMachine.mkNew sid) evs).get_latest_checkpoint
        = some c →
      c.state = (runEvents (StateMachine.mkNew sid) evs).current_state) ∧
    ((runEvents (StateMachine.mkNew sid) evs).get_latest_checkpoint = none
        ↔ evs = []) := by
  have h0 : LatestOk (StateMachine.mkNew sid) := by
    intro c hc
    cases hc
  obtain ⟨h1, h2⟩ := runEvents_length_and_latest evs (StateMachine.mkNew sid) h h0
  have hlen0 : (StateMachine.mkNew sid).checkpoints.length = 0 := rfl
  have h1' : (runEvents (StateMachine.mkNew sid) evs).checkpoints.length
      = evs.length := by
    rw [h1, hlen0]
    omega
  refine ⟨h1', h2, ?_⟩
  unfold StateMachine.get_latest_checkpoint
  rw [List.getLast?_eq_none_iff]
  constructor
  · intro hnil
    have hz : (runEvents (StateMachine.mkNew sid) evs).checkpoints.length
        = 0 := by rw [hnil]; rfl
    rw [h1'] at hz
    exact List.eq_nil_of_length_eq_zero hz
  · intro hnil
    subst hnil
    rfl

/-- Witness for C2: the spec's five-step scenario from `IDLE` through
`ERROR_RECOVERY` to `SESSION_END` yields exactly 5 checkpoints. -/
theorem checkpoint_log_tracks_transitions_witness :
    (allLegal (StateMachine.mkNew 7)
      [("start_foraging", [], 1, 11), ("content_found", [], 2, 12),
       ("content_accepted", [], 3, 13), ("error", [], 4, 14),
       ("fatal", [], 5, 15)] = true) ∧
    ((runEvents (StateMachine.mkNew 7)
      [("start_foraging", [], 1, 11), ("content_found", [], 2, 12),
       ("content_accepted", [], 3, 13), ("error", [], 4, 14),
       ("fatal", [], 5, 15)]).checkpoints.length = 5 ∧
     (∀ c, (runEvents (StateMachine.mkNew 7)
      [("start_foraging", [], 1, 11), ("content_found", [], 2, 12),
       ("content_accepted", [], 3, 13), ("error", [], 4, 14),
       ("fatal", [], 5, 15)]).get_latest_checkpoint = some c →
        c.state = (runEvents (StateMachine.mkNew 7)
      [("start_foraging", [], 1, 11), ("content_found", [], 2, 12),
       ("content_accepted", [], 3, 13), ("error", [], 4, 14),
       ("fatal", [], 5, 15)]).current_state) ∧
     ((runEvents (StateMachine.mkNew 7)
      [("start_foraging", [], 1, 11), ("content_found", [], 2, 12),
       ("content_accepted", [], 3, 13), ("error", [], 4, 14),
       ("fatal", [], 5, 15)]).get_latest_checkpoint = none ↔
      ([("start_foraging", [], 1, 11), ("content_found", [], 2, 12),
       ("content_accepted", [], 3, 13), ("error", [], 4, 14),
       ("fatal", [], 5, 15)] : List TransitionStep) = [])) :=
  ⟨by decide,
   checkpoint_log_tracks_transitions 7
     [("start_foraging", [], 1, 11), ("content_found", [], 2, 12),
      ("content_accepted", [], 3, 13), ("error", [], 4, 14),
      ("fatal", [], 5, 15)] (by decide)⟩

/-!
### C3

Recovering a fresh machine from a checkpoint taken from another machine
in state `X` restores `current_state = X` and the original `session_id`,
appends the restored checkpoint to the log, and makes subsequent
transitions behave identically to the original machine's.
-/

/-- C3: recovery on a fresh machine from a checkpoint of a machine in
state `X` (its state is the machine's current state, its session id the
machine's session id) yields that state and session id, a log holding
exactly the restored checkpoint, and every subsequent `transition`
returns the same result and reaches the same state as on the original
machine. -/
theorem recover_restores_state_session_and_behavior
    (orig : StateMachine) (c : StateCheckpoint) (sid : Nat)
    (hs : c.state = orig.current_state)
    (hid : c.session_id = orig.session_id) :
    ((StateMachine.mkNew sid).recover_from_checkpoint c).current_state
        = orig.current_state ∧
    ((StateMachine.mkNew sid).recover_from_checkpoint c).session_id
        = orig.session_id ∧
    ((StateMachine.mkNew sid).recover_from_checkpoint c).checkpoints
        = [c] ∧
    ∀ (e : String) (d : List (String × String)) (cid ts : Nat),
      (((StateMachine.mkNew sid).recover_from_checkpoint c).transition
          e d cid ts).1 = (orig.transition e d cid ts).1 ∧
      ((((StateMachine.mkNew sid).recover_from_checkpoint c).transition
          e d cid ts).2).current_state
        = ((orig.transition e d cid ts).2).current_state := by
  refine ⟨hs, hid, rfl, ?_⟩
  intro e d cid ts
  set m' := (StateMachine.mkNew sid).recover_from_checkpoint c with hm'
  have hcs : m'.current_state = orig.current_state := hs
  cases hl : (TRANSITIONS orig.current_state).lookup e with
  | none =>
      have h1 : m'.can_transition e = false := by
        unfold StateMachine.can_transition
        rw [hcs, hl]
        rfl
      have h2 : orig.can_transition e = false := by
        unfold StateMachine.can_transition
        rw [hl]
        rfl
      rw [transition_of_not_can m' e d cid ts h1,
          transition_of_not_can orig e d cid ts h2]
      refine ⟨?_, hcs⟩
      simp only [hcs]
  | some s =>
      have hl' : (TRANSITIONS m'.current_state).lookup e = some s := by
        rw [hcs]; exact hl
      rw [transition_of_lookup m' e d cid ts s hl',
          transition_of_lookup orig e d cid ts s hl]
      exact ⟨rfl, rfl⟩

/-- The original machine of the C3 witness: a fresh machine with session
id 7 after one legal transition into `FORAGING`. -/
def origMachine : StateMachine :=
  ((StateMachine.mkNew 7).transition "start_foraging" [] 1 10).2

/-- The checkpoint the C3 witness recovers from: the checkpoint written
by `origMachine`'s transition. -/
def origCheckpoint : StateCheckpoint :=
  ⟨1, 7, .foraging, 10, [], "idle --[start_foraging]--> foraging"⟩

/-- Witness for C3: recovering a fresh machine (session id 99) from
`origCheckpoint` reproduces `origMachine`'s state, session id, and
transition behaviour. -/
theorem recover_restores_state_session_and_behavior_witness :
    (origCheckpoint.state = origMachine.current_state) ∧
    (origCheckpoint.session_id = origMachine.session_id) ∧
    (((StateMachine.mkNew 99).recover_from_checkpoint
        origCheckpoint).current_state = origMachine.current_state ∧
     ((StateMachine.mkNew 99).recover_from_checkpoint
        origCheckpoint).session_id = origMachine.session_id ∧
     ((StateMachine.mkNew 99).recover_from_checkpoint
        origCheckpoint).checkpoints = [origCheckpoint] ∧
     ∀ (e : String) (d : List (String × String)) (cid ts : Nat),
       (((StateMachine.mkNew 99).recover_from_checkpoint
           origCheckpoint).transition e d cid ts).1
         = (origMachine.transition e d cid ts).1 ∧
       ((((StateMachine.mkNew 99).recover_from_checkpoint
           origCheckpoint).transition e d cid ts).2).current_state
         = ((origMachine.transition e d cid ts).2).current_state) :=
  ⟨by decide, by decide,
   recover_restores_state_session_and_behavior origMachine origCheckpoint
     99 (by decide) (by decide)⟩

/-!
### C9

`SESSION_END` is terminal: `can_transition` is false for every event and
`transition` always fails with `InvalidTransition`.
-/

/-- C9: in `SESSION_END`, `can_transition` returns false for every event
and `transition` always fails with an `InvalidTransitionError` (whose
legal-event list is empty), leaving the machine unchanged. -/
theorem session_end_terminal (m : StateMachine)
    (h : m.current_state = .session_end) (event : String)
    (data : List (String × String)) (cid ts : Nat) :
    m.can_transition event = false ∧
    (m.transition event data cid ts).1 =
      Except.error
        { current_state := .session_end, event := event,
          valid_events := [] } ∧
    (m.transition event data cid ts).2 = m := by
  have hc : m.can_transition event = false := by
    unfold StateMachine.can_transition
    rw [h]
    rfl
  refine ⟨hc, ?_, ?_⟩
  · rw [transition_of_not_can m event data cid ts hc, h]
    rfl
  · rw [transition_of_not_can m event data cid ts hc]

/-- Witness for C9 at a concrete terminal machine and event. -/
theorem session_end_terminal_witness :
    ((⟨3, .session_end, []⟩ : StateMachine).can_transition "recovered"
        = false) ∧
    (((⟨3, .session_end, []⟩ : StateMachine).transition "recovered" [] 1 2).1
        = Except.error
            { current_state := .session_end, event := "recovered",
              valid_events := [] }) ∧
    ((⟨3, .session_end, []⟩ : StateMachine).transition "recovered" [] 1 2).2
        = (⟨3, .session_end, []⟩ : StateMachine) :=
  session_end_terminal ⟨3, .session_end, []⟩ rfl "recovered" [] 1 2

/-!
### C10

A failed `transition` call appends no checkpoint: the checkpoint log, and
in fact the whole machine, is unchanged.
-/

/-- C10: a `transition` call that fails with `InvalidTransition` appends
no checkpoint — the checkpoint log and the entire machine are identical
before and after the failed call. -/
theorem failed_transition_appends_no_checkpoint (m : StateMachine)
    (event : String) (data : List (String × String)) (cid ts : Nat)
    (h : m.can_transition event = false) :
    ((m.transition event data cid ts).2).checkpoints = m.checkpoints ∧
    (m.transition event data cid ts).2 = m := by
  rw [transition_of_not_can m event data cid ts h]
  exact ⟨rfl, rfl⟩

/-- A concrete machine in `FORAGING` with one logged checkpoint, used by
the C10 witness. -/
def foragingMachine : StateMachine :=
  ⟨5, .foraging, [⟨1, 5, .foraging, 10, [], "r"⟩]⟩

/-- Witness for C10: a failed transition from `FORAGING` (illegal event
"accepted") on a machine with one logged checkpoint changes nothing. -/
theorem failed_transition_appends_no_checkpoint_witness :
    (foragingMachine.can_transition "accepted" = false) ∧
    ((foragingMachine.transition "accepted" [] 2 11).2).checkpoints
      = foragingMachine.checkpoints ∧
    (foragingMachine.transition "accepted" [] 2 11).2 = foragingMachine :=
  ⟨by decide,
   failed_transition_appends_no_checkpoint foragingMachine "accepted" [] 2 11
     (by decide)⟩

/-!
### C5

The error router classifies a failure as "fatal" exactly when it is
flagged fatal; every other kind, including the unrecognized catch-all,
yields "recovered".
-/

/-- C5: `determine_recovery_event` returns "fatal" if and only if the
failure is flagged fatal; content, parse, retryable and unrecognized
failures all return "recovered". -/
theorem recovery_event_fatal_iff_flagged_fatal (e : SandwichError) :
    (determine_recovery_event e = "fatal" ↔ e.isFatal = true) ∧
    (determine_recovery_event e = "recovered" ↔ e.isFatal = false) := by
  cases e <;>
    simp [determine_recovery_event, SandwichError.isFatal]

/-!
### C7

Starting at tier `T > 1` with a zero failure streak, exactly
`failures_to_demote` consecutive `record_failure` calls demote to
`T - 1` and reset the streak; an interleaved `record_success` resets the
failure streak without changing the tier.

The claim as stated is false: a `record_success` interleaved between
failures completes a promotion streak when `successes_to_promote` is
reached by that call, and then changes the tier (upward).  The
degenerate configuration `failures_to_demote = 0` also falsifies the
demotion clause (after zero calls the tier is unchanged).
-/

/-- A three-tier forager whose configuration promotes after a single
success, used to refute C7 as stated. -/
def eagerPromoteForager : Forager :=
  { sources := [(1, ["wikipedia"]), (2, ["web_search"]), (3, ["arxiv"])],
    config := { successes_to_promote := 1 },
    current_tier := 2, consecutive_failures := 0,
    consecutive_successes := 0 }

/-- A tier-2 forager with `failures_to_demote = 0`, used to refute the
demotion clause of C7 as stated. -/
def zeroDemoteForager : Forager :=
  { sources := [(1, ["wikipedia"]), (2, ["web_search"])],
    config := { failures_to_demote := 0 },
    current_tier := 2, consecutive_failures := 0,
    consecutive_successes := 0 }

/-- Counterexample to C7 as stated: on `zeroDemoteForager` (tier 2,
zero failure streak), after exactly `failures_to_demote` (= 0)
`record_failure` calls the tier is still 2, not 1; and on
`eagerPromoteForager` (tier 2, zero failure streak), a `record_success`
interleaved after one failure — before the threshold of 3 — changes the
tier from 2 to 3. -/
theorem forager_demotion_claim_counterexample :
    ((Forager.record_failure^[zeroDemoteForager.config.failures_to_demote]
        zeroDemoteForager).current_tier = 2 ∧
      zeroDemoteForager.current_tier - 1 = 1) ∧
    (eagerPromoteForager.record_failure.consecutive_failures
        < eagerPromoteForager.config.failures_to_demote ∧
      eagerPromoteForager.record_failure.record_success.current_tier = 3 ∧
      eagerPromoteForager.current_tier = 2) := by
  decide

/-- Method `record_failure` written as a conditional over the pre-call fields. -/
theorem record_failure_def (f : Forager) :
    f.record_failure =
      if f.config.failures_to_demote ≤ f.consecutive_failures + 1 then
        (if 1 < f.current_tier then
          { f with consecutive_successes := 0, consecutive_failures := 0,
                   current_tier := f.current_tier - 1 }
         else
          { f with consecutive_successes := 0,
                   consecutive_failures := f.consecutive_failures + 1 })
      else
        { f with consecutive_successes := 0,
                 consecutive_failures := f.consecutive_failures + 1 } :=
  rfl

/-- Method `record_success` written as a conditional over the pre-call fields. -/
theorem record_success_def (f : Forager) :
    f.record_success =
      if f.config.successes_to_promote ≤ f.consecutive_successes + 1 then
        (if f.current_tier < maxTier f.sources then
          { f with consecutive_failures := 0, consecutive_successes := 0,
                   current_tier := f.current_tier + 1 }
         else
          { f with consecutive_failures := 0,
                   consecutive_successes := f.consecutive_successes + 1 })
      else
        { f with consecutive_failures := 0,
                 consecutive_successes := f.consecutive_successes + 1 } :=
  rfl

/-- Below the demotion threshold, iterated `record_failure` only counts:
the tier, sources and config are unchanged, the failure streak equals
the number of calls, and the success streak is zeroed (for at least one
call). -/
theorem iterate_record_failure_below (f : Forager)
    (hf : f.consecutive_failures = 0) :
    ∀ j, j < f.config.failures_to_demote →
      (Forager.record_failure^[j] f).sources = f.sources ∧
      (Forager.record_failure^[j] f).config = f.config ∧
      (Forager.record_failure^[j] f).current_tier = f.current_tier ∧
      (Forager.record_failure^[j] f).consecutive_failures = j ∧
      (Forager.record_failure^[j] f).consecutive_successes
        = (if j = 0 then f.consecutive_successes else 0) := by
  intro j
  induction j with
  | zero =>
      intro _
      simp [Function.iterate_zero, hf]
  | succ k ihk =>
      intro hlt
      have hk : k < f.config.failures_to_demote := Nat.lt_of_succ_lt hlt
      obtain ⟨ihs, ihc, iht, ihf, _⟩ := ihk hk
      rw [Function.iterate_succ_apply']
      set g := Forager.record_failure^[k] f with hg
      have hnot : ¬ (g.config.failures_to_demote
          ≤ g.consecutive_failures + 1) := by
        rw [ihc, ihf]
        omega
      rw [record_failure_def g, if_neg hnot]
      refine ⟨ihs, ihc, iht, by rw [ihf], by simp⟩

/-- C7 (amended): for every forager at tier `T > 1` with
`consecutive_failures = 0` and a positive demotion threshold, exactly
`failures_to_demote` consecutive `record_failure` calls yield tier
`T - 1` with a zero failure streak; and a `record_success` interleaved
before the threshold — provided it does not complete a promotion streak
(`consecutive_successes + 1 < successes_to_promote` at that point) —
zeroes the failure streak and leaves the tier at `T`. -/
theorem forager_demotion_and_interleaved_success (f : Forager)
    (hT : 1 < f.current_tier) (hf : f.consecutive_failures = 0)
    (hd : 1 ≤ f.config.failures_to_demote) :
    ((Forager.record_failure^[f.config.failures_to_demote] f).current_tier
        = f.current_tier - 1 ∧
     (Forager.record_failure^[f.config.failures_to_demote] f).consecutive_failures
        = 0) ∧
    ∀ j, j < f.config.failures_to_demote →
      (Forager.record_failure^[j] f).consecutive_successes + 1
          < f.config.successes_to_promote →
      ((Forager.record_failure^[j] f).record_success.consecutive_failures
          = 0 ∧
       (Forager.record_failure^[j] f).record_success.current_tier
          = f.current_tier) := by
  constructor
  · obtain ⟨d, hd'⟩ : ∃ d, f.config.failures_to_demote = d + 1 :=
      ⟨f.config.failures_to_demote - 1, by omega⟩
    have hdlt : d < f.config.failures_to_demote := by omega
    obtain ⟨ihs, ihc, iht, ihf, _⟩ :=
      iterate_record_failure_below f hf d hdlt
    rw [hd', Function.iterate_succ_apply']
    set g := Forager.record_failure^[d] f with hg
    have hcond : g.config.failures_to_demote ≤ g.consecutive_failures + 1 := by
      rw [ihc, ihf]
      omega
    have htier : 1 < g.current_tier := by rw [iht]; exact hT
    rw [record_failure_def g, if_pos hcond, if_pos htier]
    exact ⟨by rw [iht], rfl⟩
  · intro j hj hp
    obtain ⟨ihs, ihc, iht, ihf, _⟩ := iterate_record_failure_below f hf j hj
    set g := Forager.record_failure^[j] f with hg
    have hnot : ¬ (g.config.successes_to_promote
        ≤ g.consecutive_successes + 1) := by
      rw [ihc]
      omega
    rw [record_success_def g, if_neg hnot]
    exact ⟨rfl, iht⟩

/-- A concrete tier-2 forager with the default thresholds, used by the
C7 witness. -/
def twoTierForager : Forager :=
  ⟨[(1, ["wikipedia"]), (2, ["web_search"])], {}, 2, 0, 0⟩

/-- Witness for C7 (amended) at `twoTierForager`. -/
theorem forager_demotion_and_interleaved_success_witness :
    (1 < twoTierForager.current_tier) ∧
    (twoTierForager.consecutive_failures = 0) ∧
    (1 ≤ twoTierForager.config.failures_to_demote) ∧
    (((Forager.record_failure^[twoTierForager.config.failures_to_demote] twoTierForager).current_tier = twoTierForager.current_tier - 1 ∧
      (Forager.record_failure^[twoTierForager.config.failures_to_demote] twoTierForager).consecutive_failures = 0) ∧
     ∀ j, j < twoTierForager.config.failures_to_demote →
       (Forager.record_failure^[j] twoTierForager).consecutive_successes + 1 < twoTierForager.config.successes_to_promote →
       ((Forager.record_failure^[j] twoTierForager).record_success.consecutive_failures = 0 ∧
        (Forager.record_failure^[j] twoTierForager).record_success.current_tier = twoTierForager.current_tier)) :=
  ⟨by decide, by decide, by decide,
   forager_demotion_and_interleaved_success twoTierForager
     (by decide) (by decide) (by decide)⟩

/-!
### C8

From the initial forager state, every sequence of `record_success` /
`record_failure` calls keeps `current_tier` within
`[1, max(configured tier keys)]` (keys are positive integers per the
data model) and never leaves both streak counters nonzero.
-/

/-- Apply a list of record calls in order (`true` = `record_success`,
`false` = `record_failure`). -/
def runOps (f : Forager) : List Bool → Forager
  | [] => f
  | b :: rest => runOps (if b then f.record_success else f.record_failure) rest

/-- The C8 invariant. -/
def TierInv (f : Forager) : Prop :=
  1 ≤ f.current_tier ∧ f.current_tier ≤ maxTier f.sources ∧
    (f.consecutive_successes = 0 ∨ f.consecutive_failures = 0)

theorem le_foldl_max (l : List Nat) (a : Nat) : a ≤ l.foldl max a := by
  induction l generalizing a with
  | nil => exact Nat.le_refl a
  | cons x xs ih =>
      exact Nat.le_trans (Nat.le_max_left a x) (ih (max a x))

theorem mem_le_foldl_max (l : List Nat) :
    ∀ (a x : Nat), x ∈ l → x ≤ l.foldl max a := by
  induction l with
  | nil => intro a x hx; cases hx
  | cons y ys ih =>
      intro a x hx
      cases hx with
      | head =>
          exact Nat.le_trans (Nat.le_max_right a y) (le_foldl_max ys (max a y))
      | tail _ h => exact ih (max a y) x h

theorem one_le_maxTier (sources : List (Nat × List String))
    (hkeys : ∀ p ∈ sources, 1 ≤ p.1) : 1 ≤ maxTier sources := by
  unfold maxTier
  cases sources with
  | nil => simp
  | cons p rest =>
      simp only [List.isEmpty_cons, if_false, Bool.false_eq_true]
      have hp : p.1 ∈ (p :: rest).map Prod.fst := by simp
      exact Nat.le_trans (hkeys p (by simp))
        (mem_le_foldl_max _ 0 p.1 hp)



theorem record_success_preserves_TierInv (f : Forager) (h : TierInv f) :
    TierInv f.record_success := by
  obtain ⟨h1, h2, _⟩ := h
  rw [record_success_def]
  by_cases hc : f.config.successes_to_promote ≤ f.consecutive_successes + 1
  · rw [if_pos hc]
    by_cases ht : f.current_tier < maxTier f.sources
    · rw [if_pos ht]
      refine ⟨?_, ?_, Or.inl rfl⟩
      · show 1 ≤ f.current_tier + 1
        omega
      · show f.current_tier + 1 ≤ maxTier f.sources
        omega
    · rw [if_neg ht]
      exact ⟨h1, h2, Or.inr rfl⟩
  · rw [if_neg hc]
    exact ⟨h1, h2, Or.inr rfl⟩

theorem record_failure_preserves_TierInv (f : Forager) (h : TierInv f) :
    TierInv f.record_failure := by
  obtain ⟨h1, h2, _⟩ := h
  rw [record_failure_def]
  by_cases hc : f.config.failures_to_demote ≤ f.consecutive_failures + 1
  · rw [if_pos hc]
    by_cases ht : 1 < f.current_tier
    · rw [if_pos ht]
      refine ⟨?_, ?_, Or.inl rfl⟩
      · show 1 ≤ f.current_tier - 1
        omega
      · show f.current_tier - 1 ≤ maxTier f.sources
        omega
    · rw [if_neg ht]
      exact ⟨h1, h2, Or.inl rfl⟩
  · rw [if_neg hc]
    exact ⟨h1, h2, Or.inl rfl⟩

theorem runOps_preserves_TierInv (ops : List Bool) :
    ∀ f : Forager, TierInv f → TierInv (runOps f ops) := by
  induction ops with
  | nil => intro f h; exact h
  | cons b rest ih =>
      intro f h
      cases b with
      | true => exact ih f.record_success (record_success_preserves_TierInv f h)
      | false => exact ih f.record_failure (record_failure_preserves_TierInv f h)

/-- C8: from the initial state (tier 1, both counters 0), after any
sequence of `record_success` / `record_failure` calls the tier stays
within `[1, max(configured tier keys)]` and the two streak counters are
never both nonzero.  Tier keys are positive integers (spec data model,
`SourceTier`). -/
theorem forager_tier_bounds_and_streak_exclusion
    (sources : List (Nat × List String)) (config : ForagerConfig)
    (ops : List Bool) (hkeys : ∀ p ∈ sources, 1 ≤ p.1) :
    1 ≤ (runOps (Forager.init sources config) ops).current_tier ∧
    (runOps (Forager.init sources config) ops).current_tier
      ≤ maxTier (runOps (Forager.init sources config) ops).sources ∧
    ((runOps (Forager.init sources config) ops).consecutive_successes = 0 ∨
     (runOps (Forager.init sources config) ops).consecutive_failures = 0) :=
  runOps_preserves_TierInv ops (Forager.init sources config)
    ⟨Nat.le_refl 1, one_le_maxTier sources hkeys, Or.inl rfl⟩

/-- Witness for C8: a two-tier configuration and a mixed call sequence. -/
theorem forager_tier_bounds_and_streak_exclusion_witness :
    (∀ p ∈ [(1, ["wikipedia"]), (2, ["web_search"])], 1 ≤ p.1) ∧
    (1 ≤ (runOps (Forager.init [(1, ["wikipedia"]), (2, ["web_search"])] {})
        [false, true, true, false, false, false]).current_tier ∧
     (runOps (Forager.init [(1, ["wikipedia"]), (2, ["web_search"])] {})
        [false, true, true, false, false, false]).current_tier
       ≤ maxTier (runOps (Forager.init [(1, ["wikipedia"]), (2, ["web_search"])] {})
        [false, true, true, false, false, false]).sources ∧
     ((runOps (Forager.init [(1, ["wikipedia"]), (2, ["web_search"])] {})
        [false, true, true, false, false, false]).consecutive_successes = 0 ∨
      (runOps (Forager.init [(1, ["wikipedia"]), (2, ["web_search"])] {})
        [false, true, true, false, false, false]).consecutive_failures = 0)) :=
  ⟨by decide,
   forager_tier_bounds_and_streak_exclusion
     [(1, ["wikipedia"]), (2, ["web_search"])] {}
     [false, true, true, false, false, false] (by decide)⟩

/-!
### C4

The claim: with no source at any tier, `forage` fails with a
"no sources configured" configuration failure surfaced to the caller.
The code instead logs a warning and returns `None` (an absent result):
the `ConfigurationFailure` of the spec's taxonomy is never raised.
-/

/-- A forager with an empty source mapping, used to refute C4. -/
def sourcelessForager : Forager :=
  Forager.init [] {}

/-- Deterministic stand-ins for the external nondeterminism of `forage`
in the C4 theorems. -/
def chooseFirst (l : List String) : String :=
  l.headD ""

/-- A fetch oracle that always raises (never reached in the C4 input). -/
def alwaysRaise (_source : String) (_query : String) : FetchOutcome :=
  .raised

/-- A random-fetch oracle that always raises (never reached in the C4
input). -/
def alwaysRaiseRandom (_source : String) : FetchOutcome :=
  .raised

/-- Counterexample to C4 as stated: on a forager whose configured
mapping has no source at any tier, `forage` returns `Except.ok none` —
the absent-result report the claim rules out — instead of failing with a
configuration error. -/
theorem forage_no_sources_returns_none_counterexample :
    sourcelessForager.forage chooseFirst alwaysRaise alwaysRaiseRandom 0
      none = Except.ok none :=
  rfl

/-- If every tier from `n` down to 1 is missing or empty, the tier walk
yields the empty source list. -/
theorem tierWalk_eq_nil (sources : List (Nat × List String)) :
    ∀ n, (∀ t, t ≤ n → 1 ≤ t → ((sources.lookup t).getD []).isEmpty = true) →
      tierWalk sources n = [] := by
  intro n
  induction n with
  | zero => intro _; rfl
  | succ k ih =>
      intro h
      unfold tierWalk
      have hk : ∀ t, t ≤ k → 1 ≤ t →
          ((sources.lookup t).getD []).isEmpty = true := by
        intro t h2 h1
        exact h t (Nat.le_succ_of_le h2) h1
      cases hl : sources.lookup (k + 1) with
      | none => exact ih hk
      | some l =>
          have hempty := h (k + 1) (Nat.le_refl (k + 1))
            (Nat.succ_le_succ (Nat.zero_le k))
          rw [hl] at hempty
          simp only [Option.getD_some] at hempty
          show (if l.isEmpty = true then tierWalk sources k else l) = []
          rw [if_pos hempty]
          exact ih hk

/-- C4 (amended): when every tier from `current_tier` down to 1 is
missing or empty, `forage` returns an absent result (`Except.ok none`,
after a warning log) — it raises no configuration error and attempts no
fetch. -/
theorem forage_no_sources_returns_absent (f : Forager)
    (choose : List String → String)
    (fetch : String → String → FetchOutcome)
    (fetch_random : String → FetchOutcome) (logId : Nat)
    (curiosity : Option String)
    (h : ∀ t, t ≤ f.current_tier → 1 ≤ t →
      ((f.sources.lookup t).getD []).isEmpty = true) :
    f.forage choose fetch fetch_random logId curiosity = Except.ok none := by
  have hnil : f.get_tier_sources = [] :=
    tierWalk_eq_nil f.sources f.current_tier h
  unfold Forager.forage
  rw [hnil]
  rfl

/-- Witness for C4 (amended): a forager whose only configured tier is
empty. -/
theorem forage_no_sources_returns_absent_witness :
    (∀ t, t ≤ (Forager.init [(1, [])] {}).current_tier → 1 ≤ t →
      (((Forager.init [(1, [])] {}).sources.lookup t).getD []).isEmpty
        = true) ∧
    (Forager.init [(1, [])] {}).forage chooseFirst alwaysRaise
      alwaysRaiseRandom 5 (some "rivers") = Except.ok none :=
  ⟨by decide,
   forage_no_sources_returns_absent (Forager.init [(1, [])] {}) chooseFirst
     alwaysRaise alwaysRaiseRandom 5 (some "rivers") (by decide)⟩

/-!
### C6

With no corpus embeddings and no type frequencies, the selector returns
the candidate of maximum confidence among those meeting
`min_confidence`, first wins on ties; absence when none qualifies.
-/

/-- The final score of a candidate when both bonuses are 1 (no corpus,
no frequency data). -/
def simpleScore (cfg : SelectionConfig) (c : CandidateStructure) : ℚ :=
  c.confidence + cfg.novelty_weight * 1 + cfg.diversity_weight * 1

/-- The `SelectedCandidate` built for a candidate when both bonuses
are 1. -/
def simpleEntry (cfg : SelectionConfig) (cand : CandidateStructure) :
    SelectedCandidate :=
  { candidate := cand, final_score := simpleScore cfg cand,
    novelty_bonus := 1, diversity_bonus := 1,
    rationale := mkRationale cand.confidence 1 1 (simpleScore cfg cand)
      cfg.novelty_weight cfg.diversity_weight }

theorem selectStep_none_acc (cs : List CandidateStructure)
    (cfg : SelectionConfig) (c : CandidateStructure) :
    selectStep cs none none none cfg none c = some (simpleEntry cfg c) :=
  rfl

theorem selectStep_some_acc (cs : List CandidateStructure)
    (cfg : SelectionConfig) (b : SelectedCandidate)
    (c : CandidateStructure) :
    selectStep cs none none none cfg (some b) c =
      (if b.final_score < simpleScore cfg c then some (simpleEntry cfg c)
       else some b) :=
  rfl

theorem simpleScore_lt_iff (cfg : SelectionConfig)
    (b c : CandidateStructure) :
    simpleScore cfg b < simpleScore cfg c ↔ b.confidence < c.confidence := by
  unfold simpleScore
  rw [add_lt_add_iff_right, add_lt_add_iff_right]

/-- Predicate: `r` is the first candidate of maximal confidence in `l`: it occurs
in `l` after only strictly-less-confident candidates, and no candidate
in `l` beats its confidence. -/
def FirstMax (l : List CandidateStructure) (r : CandidateStructure) : Prop :=
  (∃ pre post, l = pre ++ r :: post ∧
    ∀ c ∈ pre, c.confidence < r.confidence) ∧
  ∀ c ∈ l, c.confidence ≤ r.confidence

theorem foldl_selectStep_simple (cs : List CandidateStructure)
    (cfg : SelectionConfig) :
    ∀ (l p : List CandidateStructure) (b : CandidateStructure),
      FirstMax p b →
      ∃ r, l.foldl (selectStep cs none none none cfg)
          (some (simpleEntry cfg b)) = some (simpleEntry cfg r) ∧
        FirstMax (p ++ l) r := by
  intro l
  induction l with
  | nil =>
      intro p b hb
      exact ⟨b, rfl, by simpa using hb⟩
  | cons c rest ih =>
      intro p b hb
      rw [List.foldl_cons, selectStep_some_acc]
      by_cases hbc : b.confidence < c.confidence
      · have hscore : (simpleEntry cfg b).final_score < simpleScore cfg c :=
          (simpleScore_lt_iff cfg b c).mpr hbc
        rw [if_pos hscore]
        have hb' : FirstMax (p ++ [c]) c := by
          obtain ⟨⟨pre, post, hdecomp, hpre⟩, hbound⟩ := hb
          constructor
          · exact ⟨p, [], rfl,
              fun x hx => lt_of_le_of_lt (hbound x hx) hbc⟩
          · intro x hx
            rcases List.mem_append.mp hx with hxp | hxc
            · exact le_trans (hbound x hxp) (le_of_lt hbc)
            · have hxe : x = c := List.mem_singleton.mp hxc
              rw [hxe]
        obtain ⟨r, hr, hFM⟩ := ih (p ++ [c]) c hb'
        refine ⟨r, hr, ?_⟩
        rwa [List.append_assoc, List.singleton_append] at hFM
      · have hscore : ¬ (simpleEntry cfg b).final_score < simpleScore cfg c :=
          fun hcon => hbc ((simpleScore_lt_iff cfg b c).mp hcon)
        rw [if_neg hscore]
        have hb' : FirstMax (p ++ [c]) b := by
          obtain ⟨⟨pre, post, hdecomp, hpre⟩, hbound⟩ := hb
          constructor
          · refine ⟨pre, post ++ [c], ?_, hpre⟩
            rw [hdecomp]
            simp
          · intro x hx
            rcases List.mem_append.mp hx with hxp | hxc
            · exact hbound x hxp
            · have hxe : x = c := List.mem_singleton.mp hxc
              rw [hxe]
              exact le_of_not_lt hbc
        obtain ⟨r, hr, hFM⟩ := ih (p ++ [c]) b hb'
        refine ⟨r, hr, ?_⟩
        rwa [List.append_assoc, List.singleton_append] at hFM

/-- C6: with no corpus embeddings and no type frequencies, the selector
returns absence when no candidate meets `min_confidence`; otherwise it
returns a candidate of the filtered list whose confidence is maximal and
which is preceded in input order only by strictly less confident
candidates (ties keep the first). -/
theorem selector_max_confidence_no_corpus
    (candidates : List CandidateStructure) (config : SelectionConfig) :
    ((candidates.filter fun c => config.min_confidence ≤ c.confidence) = []
        → select_candidate candidates none none none (some config) = none) ∧
    ((candidates.filter fun c => config.min_confidence ≤ c.confidence) ≠ []
        → ∃ sel,
      select_candidate candidates none none none (some config) = some sel ∧
      sel.candidate ∈
        candidates.filter (fun c => config.min_confidence ≤ c.confidence) ∧
      (∀ c ∈ candidates.filter (fun c => config.min_confidence ≤ c.confidence),
        c.confidence ≤ sel.candidate.confidence) ∧
      ∃ pre post,
        candidates.filter (fun c => config.min_confidence ≤ c.confidence)
          = pre ++ sel.candidate :: post ∧
        ∀ c ∈ pre, c.confidence < sel.candidate.confidence) := by
  constructor
  · intro hnil
    unfold select_candidate
    simp only [Option.getD_some]
    by_cases hc : candidates.isEmpty
    · rw [if_pos hc]
    · rw [if_neg hc, hnil]
      rfl
  · intro hne
    have hcand : candidates.isEmpty = false := by
      cases candidates with
      | nil => exact absurd rfl hne
      | cons a as => rfl
    have heq : select_candidate candidates none none none (some config)
        = List.foldl (selectStep candidates none none none config) none
            (candidates.filter fun c => config.min_confidence ≤ c.confidence) := by
      unfold select_candidate
      simp only [Option.getD_some, hcand, Bool.false_eq_true, if_false]
      cases hv : (candidates.filter
          fun c => config.min_confidence ≤ c.confidence) with
      | nil => exact absurd hv hne
      | cons v vs => rfl
    cases hv : (candidates.filter
        fun c => config.min_confidence ≤ c.confidence) with
    | nil => exact absurd hv hne
    | cons v vs =>
        rw [hv] at heq
        rw [List.foldl_cons, selectStep_none_acc] at heq
        have hFM : FirstMax [v] v := by
          constructor
          · exact ⟨[], [], rfl, by simp⟩
          · intro x hx
            have hxe : x = v := List.mem_singleton.mp hx
            rw [hxe]
        obtain ⟨r, hr, hFMr⟩ :=
          foldl_selectStep_simple candidates config vs [v] v hFM
        rw [List.singleton_append] at hFMr
        obtain ⟨⟨pre, post, hdecomp, hpre⟩, hbound⟩ := hFMr
        refine ⟨simpleEntry config r, by rw [heq, hr], ?_, ?_, ?_⟩
        · rw [hdecomp]
          exact List.mem_append_right pre (List.mem_cons_self r post)
        · intro c hc
          exact hbound c hc
        · exact ⟨pre, post, hdecomp, hpre⟩

/-- The spec's scenario candidates with confidences 0.6, 0.9, 0.7
(exact rationals). -/
def scenarioCandidates : List CandidateStructure :=
  [⟨"A", "B", "C", "bound", mkRat 6 10, "ok"⟩,
   ⟨"D", "E", "F", "temporal", mkRat 9 10, "great"⟩,
   ⟨"G", "H", "I", "dialectic", mkRat 7 10, "good"⟩]

/-- The default selection configuration, written with `mkRat`. -/
def scenarioConfig : SelectionConfig :=
  { min_confidence := mkRat 4 10, novelty_weight := mkRat 3 10,
    diversity_weight := mkRat 2 10 }

/-- Witness for C6: at the scenario candidates (confidences 0.6, 0.9,
0.7) with no corpus context, the selector picks a viable candidate of
maximal confidence — the 0.9 one. -/
theorem selector_max_confidence_no_corpus_witness :
    ((scenarioCandidates.filter
        fun c => scenarioConfig.min_confidence ≤ c.confidence) ≠ []) ∧
    (∃ sel,
      select_candidate scenarioCandidates none none none
          (some scenarioConfig) = some sel ∧
      sel.candidate ∈ scenarioCandidates.filter
        (fun c => scenarioConfig.min_confidence ≤ c.confidence) ∧
      (∀ c ∈ scenarioCandidates.filter
          (fun c => scenarioConfig.min_confidence ≤ c.confidence),
        c.confidence ≤ sel.candidate.confidence) ∧
      ∃ pre post,
        scenarioCandidates.filter
            (fun c => scenarioConfig.min_confidence ≤ c.confidence)
          = pre ++ sel.candidate :: post ∧
        ∀ c ∈ pre, c.confidence < sel.candidate.confidence) :=
  ⟨by decide,
   (selector_max_confidence_no_corpus scenarioCandidates scenarioConfig).2
     (by decide)⟩

end Sandwich
